import Mathlib

/-!
Shallow embedding of the concurrency core of the `alien-inbound` game
(`src/game.h`, `src/game.c`, `src/threads.c`, `src/input.c`, `src/render.c`).

Machine `int` values are modelled as `Int` (positions, screen metrics,
signed active counts) or `Nat` (monotone counters that the code only
increments).  Each critical section of the C code (a region of code
executed while holding one of the five region mutexes) is embedded as a
pure function on the state; the pthread mutexes linearize the sections,
so system executions are interleavings of these atomic section functions.
-/

set_option maxRecDepth 8000

namespace AlienInbound

/-- `DirecaoDisparo` from `game.h` lines 20-26. -/
inductive DirecaoDisparo where
  | DIR_VERTICAL
  | DIR_DIAGONAL_ESQ
  | DIR_DIAGONAL_DIR
  | DIR_HORIZONTAL_ESQ
  | DIR_HORIZONTAL_DIR
deriving DecidableEq, Repr

/-- `Lancador` from `game.h` lines 28-31. -/
structure Lancador where
  tem_foguete : Bool
  direcao : DirecaoDisparo
deriving DecidableEq, Repr

/-- `Nave` from `game.h` lines 33-39 (the pthread handle is not modelled). -/
structure Nave where
  id : Nat
  x : Int
  y : Int
  ativa : Bool
  destruida : Bool
deriving DecidableEq, Repr

/-- `Foguete` from `game.h` lines 41-49 (the pthread handle is not modelled). -/
structure Foguete where
  id : Nat
  x : Int
  y : Int
  dx : Int
  dy : Int
  direcao : DirecaoDisparo
  lancador_id : Nat
  ativa : Bool
deriving DecidableEq, Repr

/-- `DifficultyConfig` from `game.h` lines 51-60. -/
structure DifficultyConfig where
  id : Nat
  launchers : Nat
  reload_ms : Nat
  ships_total : Nat
  ship_speed_ms : Nat
  spawn_min_ms : Nat
  spawn_max_ms : Nat
deriving DecidableEq, Repr

/-- Capacity `MAX_NAVES` from `game.h` line 15. -/
def MAX_NAVES : Nat := 80

/-- Capacity `MAX_FOGUETES` from `game.h` line 16. -/
def MAX_FOGUETES : Nat := 150

/-- Default width `DEF_W` from `game.c` line 11. -/
def DEF_W : Int := 120

/-- Default height `DEF_H` from `game.c` line 12. -/
def DEF_H : Int := 32

/-- `HUD_H` from `game.c` line 13. -/
def HUD_H : Int := 3

/-- `CTRL_H` from `game.c` line 14. -/
def CTRL_H : Int := 2

/-- The difficulty table `DIFFS` from `game.c` lines 21-25
(the `name` strings are presentation data and are omitted). -/
def DIFFS : List DifficultyConfig :=
  [ { id := 0, launchers := 4,  reload_ms := 2500, ships_total := 30,
      ship_speed_ms := 800, spawn_min_ms := 2000, spawn_max_ms := 3000 },
    { id := 1, launchers := 7,  reload_ms := 1500, ships_total := 40,
      ship_speed_ms := 600, spawn_min_ms := 2000, spawn_max_ms := 2000 },
    { id := 2, launchers := 12, reload_ms := 800,  ships_total := 60,
      ship_speed_ms := 450, spawn_min_ms := 1000, spawn_max_ms := 2000 } ]

/-- `GameState` from `game.h` lines 62-115 (mutexes, condition variables and
thread handles are not data; `start_time` is absorbed into `elapsed_sec`). -/
structure GameState where
  screen_width : Int
  screen_height : Int
  hud_height : Int
  controls_height : Int
  pontuacao : Int
  naves_total : Nat
  naves_destruidas : Nat
  naves_chegaram : Nat
  naves_spawned : Nat
  game_over : Bool
  dificuldade : Nat
  cfg : DifficultyConfig
  elapsed_sec : Nat
  shots_fired : Nat
  shots_hit : Nat
  current_streak : Nat
  best_streak : Nat
  bateria_x : Int
  direcao_atual : DirecaoDisparo
  lancadores : List Lancador
  num_lancadores : Nat
  tempo_recarga : Nat
  naves : List Nave
  num_naves_ativas : Int
  foguetes : List Foguete
  num_foguetes_ativos : Int
deriving DecidableEq, Repr

/-- `game_init` from `game.c` lines 27-75: zero the state, clamp the
difficulty into range (out of range falls back to Medium), copy the
difficulty configuration, and clear every slot. -/
def game_init (dificuldade : Int) : GameState :=
  let d : Nat := if dificuldade < 0 ∨ 2 < dificuldade then 1 else dificuldade.toNat
  let cfg := (DIFFS[d]?).getD
    { id := 1, launchers := 7, reload_ms := 1500, ships_total := 40,
      ship_speed_ms := 600, spawn_min_ms := 2000, spawn_max_ms := 2000 }
  { screen_width := DEF_W
    screen_height := DEF_H
    hud_height := HUD_H
    controls_height := CTRL_H
    pontuacao := 0
    naves_total := cfg.ships_total
    naves_destruidas := 0
    naves_chegaram := 0
    naves_spawned := 0
    game_over := false
    dificuldade := d
    cfg := cfg
    elapsed_sec := 0
    shots_fired := 0
    shots_hit := 0
    current_streak := 0
    best_streak := 0
    bateria_x := DEF_W / 2
    direcao_atual := .DIR_VERTICAL
    lancadores := List.replicate cfg.launchers { tem_foguete := false, direcao := .DIR_VERTICAL }
    num_lancadores := cfg.launchers
    tempo_recarga := cfg.reload_ms
    naves := List.replicate MAX_NAVES { id := 0, x := 0, y := 0, ativa := false, destruida := false }
    num_naves_ativas := 0
    foguetes := List.replicate MAX_FOGUETES
      { id := 0, x := 0, y := 0, dx := 0, dy := 0, direcao := .DIR_VERTICAL,
        lancador_id := 0, ativa := false }
    num_foguetes_ativos := 0 }

/-- The `for (i = 0; ...; i++) if (p(a[i])) ...` linear scans of `game.c`
and `threads.c`: index of the first element satisfying `p`. -/
def busca_linear {α : Type} (p : α → Bool) : List α → Option Nat
  | [] => none
  | x :: xs => if p x then some 0 else (busca_linear p xs).map (· + 1)

theorem busca_linear_some_lt {α : Type} {p : α → Bool} {l : List α} {i : Nat}
    (h : busca_linear p l = some i) : i < l.length := by
  induction l generalizing i with
  | nil => simp [busca_linear] at h
  | cons x xs ih =>
    by_cases hx : p x
    · have h0 : (0 : Nat) = i := by simpa [busca_linear, hx] using h
      subst h0
      simp
    · simp [busca_linear, hx] at h
      obtain ⟨j, hj, rfl⟩ := h
      have := ih hj
      simp
      omega

theorem busca_linear_some_sat {α : Type} {p : α → Bool} {l : List α} {i : Nat}
    (h : busca_linear p l = some i) : ∃ x, l[i]? = some x ∧ p x = true := by
  induction l generalizing i with
  | nil => simp [busca_linear] at h
  | cons x xs ih =>
    by_cases hx : p x
    · have h0 : (0 : Nat) = i := by simpa [busca_linear, hx] using h
      subst h0
      exact ⟨x, by simp, hx⟩
    · simp [busca_linear, hx] at h
      obtain ⟨j, hj, rfl⟩ := h
      obtain ⟨y, hy, hpy⟩ := ih hj
      exact ⟨y, by simpa using hy, hpy⟩

/-- The transition gate for a destroy outcome: `threads.c` lines 141-147
(actor side) and lines 216-222 (projectile side).  Under `mutex_naves`,
flip `ativa` from true to false and set `destruida`; report whether this
caller performed the flip. -/
def gate_destruir_nave (g : GameState) (i : Nat) : Bool × GameState :=
  match g.naves[i]? with
  | some n =>
      if n.ativa then
        (true, { g with naves := g.naves.set i { n with ativa := false, destruida := true } })
      else
        (false, g)
  | none => (false, g)

/-- The score/stat update after a successful destroy flip: `threads.c`
lines 151-157 and lines 242-248, under `mutex_estado`. -/
def score_destruicao (g : GameState) : GameState :=
  let cs := g.current_streak + 1
  { g with
    naves_destruidas := g.naves_destruidas + 1
    pontuacao := g.pontuacao + 10
    shots_hit := g.shots_hit + 1
    current_streak := cs
    best_streak := if cs > g.best_streak then cs else g.best_streak }

/-- The transition gate for a ground outcome: `threads.c` lines 107-112,
under `mutex_naves`. -/
def gate_chegada_nave (g : GameState) (i : Nat) : Bool × GameState :=
  match g.naves[i]? with
  | some n =>
      if n.ativa then
        (true, { g with naves := g.naves.set i { n with ativa := false } })
      else
        (false, g)
  | none => (false, g)

/-- The counter update after a successful ground flip: `threads.c`
lines 115-118, under `mutex_estado`. -/
def score_chegada (g : GameState) : GameState :=
  { g with naves_chegaram := g.naves_chegaram + 1, current_streak := 0 }

/-- Deactivate projectile slot `j` (`f->ativa = false` /
`foguetes[i].ativa = false` under `mutex_foguetes`; `threads.c` lines 131,
200-202, 229-231). -/
def desativar_foguete (g : GameState) (j : Nat) : GameState :=
  match g.foguetes[j]? with
  | some f => { g with foguetes := g.foguetes.set j { f with ativa := false } }
  | none => g

/-- One actor vertical step, `threads.c` lines 93-97: if the slot is still
alive, `y++` under `mutex_naves`. -/
def nave_desce (g : GameState) (i : Nat) : GameState :=
  match g.naves[i]? with
  | some n => if n.ativa then { g with naves := g.naves.set i { n with y := n.y + 1 } } else g
  | none => g

/-- One projectile move step, `threads.c` lines 187-191: if the slot is
still alive, advance by the direction vector under `mutex_foguetes`. -/
def foguete_avanca (g : GameState) (j : Nat) : GameState :=
  match g.foguetes[j]? with
  | some f =>
      if f.ativa then { g with foguetes := g.foguetes.set j { f with x := f.x + f.dx, y := f.y + f.dy } }
      else g
  | none => g

/-- `criar_nave` from `game.c` lines 88-135.  `randX` stands for the
`rand()` draw; `mallocOk` and `pcreateOk` are the outcomes of the
`malloc` and `pthread_create` calls. -/
def criar_nave (g : GameState) (randX : Nat) (mallocOk pcreateOk : Bool) : GameState :=
  if g.naves_total ≤ g.naves_spawned then g
  else if (MAX_NAVES : Int) ≤ g.num_naves_ativas then g
  else
    match busca_linear (fun n => !n.ativa) g.naves with
    | none => g
    | some idx =>
      let w := g.screen_width
      let x : Int := if 0 < w then (randX : Int) % w else 0
      let antiga := (g.naves[idx]?).getD { id := 0, x := 0, y := 0, ativa := false, destruida := false }
      let g1 := { g with
        naves := g.naves.set idx
          { antiga with id := idx, x := x, y := g.hud_height, ativa := true, destruida := false }
        num_naves_ativas := g.num_naves_ativas + 1 }
      let g2 := { g1 with naves_spawned := g1.naves_spawned + 1 }
      if !mallocOk then
        g2
      else if !pcreateOk then
        { g2 with
          naves := g2.naves.set idx
            { antiga with id := idx, x := x, y := g.hud_height, ativa := false, destruida := false }
          num_naves_ativas := g2.num_naves_ativas - 1 }
      else g2

/-- `tentar_disparar` from `game.c` lines 137-205.  `mallocOk` and
`pcreateOk` are the outcomes of the `malloc` and `pthread_create` calls;
the returned `Bool` is the function's return value. -/
def tentar_disparar (g : GameState) (mallocOk pcreateOk : Bool) : Bool × GameState :=
  match busca_linear (fun l => l.tem_foguete) g.lancadores with
  | none => (false, g)
  | some li =>
    match busca_linear (fun f => !f.ativa) g.foguetes with
    | none => (false, g)
    | some fi =>
      let bx := g.bateria_x
      let dir := g.direcao_atual
      let sw := g.screen_width
      let sh := g.screen_height
      let ch := g.controls_height
      let antigoF := (g.foguetes[fi]?).getD
        { id := 0, x := 0, y := 0, dx := 0, dy := 0, direcao := .DIR_VERTICAL,
          lancador_id := 0, ativa := false }
      let novoF : Foguete :=
        { antigoF with
          id := fi
          x := if bx < 0 then 0 else if sw ≤ bx then sw - 1 else bx
          y := sh - ch - 1
          direcao := dir
          lancador_id := li
          ativa := true }
      let antigoL := ((g.lancadores[li]?).getD { tem_foguete := false, direcao := .DIR_VERTICAL })
      let g1 := { g with
        foguetes := g.foguetes.set fi novoF
        num_foguetes_ativos := g.num_foguetes_ativos + 1
        lancadores := g.lancadores.set li { antigoL with tem_foguete := false }
        shots_fired := g.shots_fired + 1 }
      if !mallocOk then
        (true, g1)
      else if !pcreateOk then
        (false, { g1 with
          foguetes := g1.foguetes.set fi { novoF with ativa := false }
          num_foguetes_ativos := g1.num_foguetes_ativos - 1 })
      else
        (true, g1)

/-- The keys handled by `process_input` (`input.c` lines 15-39); the
space key routes to `tentar_disparar` and is modelled separately. -/
inductive Tecla where
  | esquerda
  | direita
  | cima
  | diagEsq
  | diagDir
  | horEsq
  | horDir
  | espaco
  | sair
  | outra
deriving DecidableEq, Repr

/-- `process_input` from `input.c` lines 10-43.  `mallocOk` and
`pcreateOk` feed the `tentar_disparar` call made on the space key. -/
def process_input (g : GameState) (k : Tecla) (mallocOk pcreateOk : Bool) : GameState :=
  match k with
  | .esquerda => if 0 < g.bateria_x then { g with bateria_x := g.bateria_x - 1 } else g
  | .direita => if g.bateria_x < g.screen_width - 1 then { g with bateria_x := g.bateria_x + 1 } else g
  | .cima => { g with direcao_atual := .DIR_VERTICAL }
  | .diagEsq => { g with direcao_atual := .DIR_DIAGONAL_ESQ }
  | .diagDir => { g with direcao_atual := .DIR_DIAGONAL_DIR }
  | .horEsq => { g with direcao_atual := .DIR_HORIZONTAL_ESQ }
  | .horDir => { g with direcao_atual := .DIR_HORIZONTAL_DIR }
  | .espaco => (tentar_disparar g mallocOk pcreateOk).2
  | .sair => { g with game_over := true }
  | .outra => g

/-- The reloader's scan, `threads.c` lines 271-277: find the first
unloaded bay and capture the currently selected aim direction. -/
def artilheiro_scan (g : GameState) : Option (Nat × DirecaoDisparo) :=
  (busca_linear (fun l => !l.tem_foguete) g.lancadores).map (fun i => (i, g.direcao_atual))

/-- The reloader's commit after its unlocked sleep, `threads.c`
lines 283-286: re-acquire the bays lock and mark bay `i` loaded with the
captured direction only if the run has not terminated and the bay is
still unloaded. -/
def artilheiro_commit (g : GameState) (i : Nat) (dir : DirecaoDisparo) : GameState :=
  match g.lancadores[i]? with
  | some l =>
      if !g.game_over && !l.tem_foguete then
        { g with lancadores := g.lancadores.set i { tem_foguete := true, direcao := dir } }
      else g
  | none => g

/-- The renderer's metric publication, `render.c` lines 141-158: clamp
the measured terminal size, and when it differs from the stored metrics,
store it and re-clamp `bateria_x` to the new width. -/
def render_metricas (g : GameState) (real_w real_h : Int) : GameState :=
  let rh := if real_h < 8 then 8 else real_h
  let rw := if real_w < 40 then 40 else real_w
  if rw = g.screen_width ∧ rh = g.screen_height then g
  else
    let g1 := { g with screen_width := rw, screen_height := rh }
    if rw ≤ g1.bateria_x then { g1 with bateria_x := rw - 1 } else g1

/-- The orchestrating loop's end-condition evaluation, `threads.c`
lines 28-49: read the counters under `mutex_estado` and set the
termination flag when more than half the targets reached the ground or
all targets are handled. -/
def verifica_fim (g : GameState) : GameState :=
  let total := g.naves_total
  let lose_now : Bool := decide (total / 2 < g.naves_chegaram)
  let all_handled : Bool := decide (total ≤ g.naves_destruidas + g.naves_chegaram)
  if lose_now || all_handled then { g with game_over := true } else g

/-- `finalizar_threads`, `game.c` lines 207-211: the shutdown path's only
state mutation is storing true into the termination flag. -/
def finalizar_threads (g : GameState) : GameState :=
  { g with game_over := true }

/-- The direction-vector table at the top of `thread_foguete`,
`threads.c` lines 178-184. -/
def vetor_direcao : DirecaoDisparo → Int × Int
  | .DIR_VERTICAL => (0, -1)
  | .DIR_DIAGONAL_ESQ => (-1, -1)
  | .DIR_DIAGONAL_DIR => (1, -1)
  | .DIR_HORIZONTAL_ESQ => (-1, 0)
  | .DIR_HORIZONTAL_DIR => (1, 0)

/-- The projectile boundary test, `threads.c` line 199. -/
def fora_dos_limites (x y sw sh hud ch : Int) : Bool :=
  decide (x < 0) || decide (sw ≤ x) || decide (y < hud) || decide (sh - ch ≤ y)

/-- The projectile's collision scan over the actor slots, `threads.c`
lines 211-215: first alive actor within the forgiving box. -/
def nave_em_colisao (naves : List Nave) (fx fy : Int) : Option Nat :=
  busca_linear
    (fun n => n.ativa && decide ((n.x - fx).natAbs ≤ 2) && decide ((n.y - fy).natAbs ≤ 2))
    naves

/-- Whether one loop iteration ended the task's loop. -/
inductive ResultadoPasso where
  | sai
  | continua
deriving DecidableEq, Repr

/-- One iteration of the `thread_foguete` loop, `threads.c`
lines 186-254: check the termination flag, move, deactivate on leaving
the playfield, otherwise scan the actor slots, and on a hit flip the
actor's gate, deactivate the projectile and run the score update. -/
def thread_foguete_passo (g : GameState) (j : Nat) : ResultadoPasso × GameState :=
  if g.game_over then (.sai, g)
  else
    match g.foguetes[j]? with
    | none => (.sai, g)
    | some f =>
      if !f.ativa then (.sai, g)
      else
        let f1 := { f with x := f.x + f.dx, y := f.y + f.dy }
        let g1 := { g with foguetes := g.foguetes.set j f1 }
        if fora_dos_limites f1.x f1.y g1.screen_width g1.screen_height g1.hud_height g1.controls_height then
          (.sai, { g1 with foguetes := g1.foguetes.set j { f1 with ativa := false } })
        else
          match nave_em_colisao g1.naves f1.x f1.y with
          | some i =>
            let g2 := (gate_destruir_nave g1 i).2
            let g3 := { g2 with foguetes := g2.foguetes.set j { f1 with ativa := false } }
            (.sai, score_destruicao g3)
          | none => (.continua, g1)

/-- Which side races to terminate actor slot `i`: the actor's own task
(`thread_nave`, `threads.c` lines 139-159, after its collision scan
deactivated rocket `j` at line 131) or a projectile task
(`thread_foguete`, `threads.c` lines 210-250, rocket `j` deactivating
itself on a hit). -/
inductive OrigemTentativa where
  | ladoNave (j : Nat)
  | ladoFoguete (j : Nat)
deriving DecidableEq, Repr

/-- One attempt to count the destruction of actor slot `i`: run the
transition gate under `mutex_naves`, and perform the score update under
`mutex_estado` only when this attempt performed the flip.  Returns
whether this attempt scored. -/
def tentativa_destruir (i : Nat) (g : GameState) (o : OrigemTentativa) : Bool × GameState :=
  match o with
  | .ladoNave j =>
    let g0 := desativar_foguete g j
    let r := gate_destruir_nave g0 i
    (r.1, if r.1 then score_destruicao r.2 else r.2)
  | .ladoFoguete j =>
    let r := gate_destruir_nave g i
    if r.1 then (true, score_destruicao (desativar_foguete r.2 j)) else (false, r.2)

/-- Run a sequence of racing attempts against slot `i` in the order the
per-slot lock serialized them, counting how many scored. -/
def executa_tentativas (i : Nat) (g : GameState) : List OrigemTentativa → Nat × GameState
  | [] => (0, g)
  | o :: os =>
    let r := tentativa_destruir i g o
    let s := executa_tentativas i r.2 os
    ((if r.1 then 1 else 0) + s.1, s.2)

/-- Progress of the single orchestrating task through the critical
sections of `criar_nave` (`game.c` lines 88-135): `ocioso` outside the
function, `conferido` after passing the spawn-limit check (lines 89-94),
`inicializado i` after slot `i` was initialized (lines 96-118), and
`lancando i` after the spawned counter was incremented (lines 120-122)
while the task launch is still pending. -/
inductive FaseSpawn where
  | ocioso
  | conferido
  | inicializado (i : Nat)
  | lancando (i : Nat)
deriving DecidableEq, Repr

/-- The whole-system state: the shared `GameState`, the orchestrator's
position inside `criar_nave`, and the outstanding score-update
obligations of tasks whose gate flip succeeded but whose
`mutex_estado` score section has not run yet (the task-local `first`
flags of `threads.c`). -/
structure SysState where
  g : GameState
  fase : FaseSpawn
  pend_destruicao : Nat
  pend_chegada : Nat
deriving DecidableEq, Repr

/-- The atomic critical sections of every task in the system, at the
granularity at which the five region mutexes linearize them. -/
inductive Ev where
  | confereSpawn
  | inicializaSlot (i : Nat) (x : Int)
  | falhaSlot
  | incrementaSpawn
  | falhaMalloc
  | lancamentoOk
  | falhaLancamento
  | moveNave (i : Nat)
  | gateChegada (i : Nat)
  | scoreChegada
  | naveDetecta (j : Nat)
  | gateDestruicao (i : Nat)
  | scoreDestr
  | reapNave
  | moveFoguete (j : Nat)
  | foraDosLimites (j : Nat)
  | reapFoguete
  | disparo (mallocOk pcreateOk : Bool)
  | recarga (i : Nat) (dir : DirecaoDisparo)
  | tecla (k : Tecla) (mallocOk pcreateOk : Bool)
  | fimDeJogo
  | atualizaRelogio (t : Nat)
  | redimensiona (rw rh : Int)
deriving DecidableEq, Repr

/-- One system step: apply one critical section.  Orchestrator sections
are guarded by the orchestrator's phase, since `criar_nave` is called
only from the single `thread_principal` loop (`threads.c` line 60). -/
def passo (s : SysState) (e : Ev) : SysState :=
  match e with
  | .confereSpawn =>
    match s.fase with
    | .ocioso =>
        if s.g.naves_spawned < s.g.naves_total then { s with fase := .conferido } else s
    | _ => s
  | .inicializaSlot i x =>
    match s.fase with
    | .conferido =>
      if (MAX_NAVES : Int) ≤ s.g.num_naves_ativas then s
      else
        match s.g.naves[i]? with
        | some n =>
          if n.ativa then s
          else
            { s with
              fase := .inicializado i
              g := { s.g with
                naves := s.g.naves.set i
                  { n with id := i, x := x, y := s.g.hud_height, ativa := true, destruida := false }
                num_naves_ativas := s.g.num_naves_ativas + 1 } }
        | none => s
    | _ => s
  | .falhaSlot =>
    match s.fase with
    | .conferido => { s with fase := .ocioso }
    | _ => s
  | .incrementaSpawn =>
    match s.fase with
    | .inicializado i =>
        { s with fase := .lancando i, g := { s.g with naves_spawned := s.g.naves_spawned + 1 } }
    | _ => s
  | .falhaMalloc =>
    match s.fase with
    | .lancando _ => { s with fase := .ocioso }
    | _ => s
  | .lancamentoOk =>
    match s.fase with
    | .lancando _ => { s with fase := .ocioso }
    | _ => s
  | .falhaLancamento =>
    match s.fase with
    | .lancando i =>
      match s.g.naves[i]? with
      | some n =>
          { s with
            fase := .ocioso
            g := { s.g with
              naves := s.g.naves.set i { n with ativa := false }
              num_naves_ativas := s.g.num_naves_ativas - 1 } }
      | none => { s with fase := .ocioso }
    | _ => s
  | .moveNave i => { s with g := nave_desce s.g i }
  | .gateChegada i =>
    let r := gate_chegada_nave s.g i
    if r.1 then { s with g := r.2, pend_chegada := s.pend_chegada + 1 } else { s with g := r.2 }
  | .scoreChegada =>
    match s.pend_chegada with
    | 0 => s
    | k + 1 => { s with g := score_chegada s.g, pend_chegada := k }
  | .naveDetecta j => { s with g := desativar_foguete s.g j }
  | .gateDestruicao i =>
    let r := gate_destruir_nave s.g i
    if r.1 then { s with g := r.2, pend_destruicao := s.pend_destruicao + 1 } else { s with g := r.2 }
  | .scoreDestr =>
    match s.pend_destruicao with
    | 0 => s
    | k + 1 => { s with g := score_destruicao s.g, pend_destruicao := k }
  | .reapNave => { s with g := { s.g with num_naves_ativas := s.g.num_naves_ativas - 1 } }
  | .moveFoguete j => { s with g := foguete_avanca s.g j }
  | .foraDosLimites j => { s with g := desativar_foguete s.g j }
  | .reapFoguete => { s with g := { s.g with num_foguetes_ativos := s.g.num_foguetes_ativos - 1 } }
  | .disparo m p => { s with g := (tentar_disparar s.g m p).2 }
  | .recarga i dir => { s with g := artilheiro_commit s.g i dir }
  | .tecla k m p => { s with g := process_input s.g k m p }
  | .fimDeJogo => { s with g := finalizar_threads s.g }
  | .atualizaRelogio t => { s with g := { s.g with elapsed_sec := t } }
  | .redimensiona rw rh => { s with g := render_metricas s.g rw rh }

/-- Run a trace of critical sections. -/
def executa (s : SysState) : List Ev → SysState
  | [] => s
  | e :: es => executa (passo s e) es

/-- The system state right after `game_init` (`main.c` lines 34-36):
orchestrator outside `criar_nave`, no pending score obligations. -/
def sistema_inicial (dificuldade : Int) : SysState :=
  { g := game_init dificuldade, fase := .ocioso, pend_destruicao := 0, pend_chegada := 0 }

/-- Number of alive actor slots. -/
def conta_ativas (naves : List Nave) : Nat :=
  naves.countP (fun n => n.ativa)

/-- Phase contribution to the accounting invariant: between slot
initialization and the spawned-counter increment one alive slot is not
yet reflected in `naves_spawned`. -/
def bonus_fase : FaseSpawn → Nat
  | .inicializado _ => 1
  | _ => 0

/-- The counting invariant tying the run-state counters to the actor
slots and the in-flight obligations. -/
def Inv (s : SysState) : Prop :=
  s.g.naves_spawned ≤ s.g.naves_total ∧
  s.g.naves_destruidas + s.g.naves_chegaram + s.pend_destruicao + s.pend_chegada +
      conta_ativas s.g.naves ≤ s.g.naves_spawned + bonus_fase s.fase ∧
  ((s.fase = .conferido ∨ ∃ i, s.fase = .inicializado i) → s.g.naves_spawned < s.g.naves_total)

theorem conta_ativas_set_off {l : List Nave} {i : Nat} {n m : Nave}
    (h : l[i]? = some n) (hn : n.ativa = true) (hm : m.ativa = false) :
    conta_ativas (l.set i m) + 1 = conta_ativas l := by
  obtain ⟨hi, hv⟩ := List.getElem?_eq_some.mp h
  have hcount := List.countP_set (fun a => a.ativa) l i m hi
  rw [hv] at hcount
  have hpos : 0 < List.countP (fun a => a.ativa) l := by
    rw [List.countP_pos_iff]
    exact ⟨n, by rw [← hv]; exact List.getElem_mem hi, hn⟩
  rw [conta_ativas, conta_ativas, hcount, hn, hm]
  simp
  omega

theorem conta_ativas_set_on {l : List Nave} {i : Nat} {n m : Nave}
    (h : l[i]? = some n) (hn : n.ativa = false) (hm : m.ativa = true) :
    conta_ativas (l.set i m) = conta_ativas l + 1 := by
  obtain ⟨hi, hv⟩ := List.getElem?_eq_some.mp h
  have hcount := List.countP_set (fun a => a.ativa) l i m hi
  rw [hv] at hcount
  rw [conta_ativas, conta_ativas, hcount, hn, hm]
  simp

theorem conta_ativas_set_same {l : List Nave} {i : Nat} {n m : Nave}
    (h : l[i]? = some n) (hm : m.ativa = n.ativa) :
    conta_ativas (l.set i m) = conta_ativas l := by
  obtain ⟨hi, hv⟩ := List.getElem?_eq_some.mp h
  have hcount := List.countP_set (fun a => a.ativa) l i m hi
  rw [hv] at hcount
  rw [conta_ativas, conta_ativas, hcount, hm]
  by_cases hb : n.ativa = true
  · simp [hb]
    have hpos : 0 < List.countP (fun a => a.ativa) l := by
      rw [List.countP_pos_iff]
      exact ⟨n, by rw [← hv]; exact List.getElem_mem hi, hb⟩
    omega
  · simp at hb
    simp [hb]

/-- The fields the counting invariant and the termination flag depend
on; operations that touch none of them. -/
def MesmosContadores (g g2 : GameState) : Prop :=
  g2.naves = g.naves ∧ g2.naves_total = g.naves_total ∧ g2.naves_spawned = g.naves_spawned ∧
  g2.naves_destruidas = g.naves_destruidas ∧ g2.naves_chegaram = g.naves_chegaram ∧
  g2.game_over = g.game_over

theorem tentar_disparar_frame (g : GameState) (m p : Bool) :
    MesmosContadores g (tentar_disparar g m p).2 := by
  unfold tentar_disparar
  cases h1 : busca_linear (fun l => l.tem_foguete) g.lancadores with
  | none => simp [MesmosContadores]
  | some li =>
    cases h2 : busca_linear (fun f => !f.ativa) g.foguetes with
    | none => simp [MesmosContadores]
    | some fi => cases m <;> cases p <;> simp [MesmosContadores]

theorem desativar_foguete_frame (g : GameState) (j : Nat) :
    MesmosContadores g (desativar_foguete g j) := by
  unfold desativar_foguete
  cases h : g.foguetes[j]? <;> simp [MesmosContadores]

theorem foguete_avanca_frame (g : GameState) (j : Nat) :
    MesmosContadores g (foguete_avanca g j) := by
  unfold foguete_avanca
  cases h : g.foguetes[j]? with
  | none => simp [MesmosContadores]
  | some f => by_cases hf : f.ativa <;> simp [MesmosContadores, hf]

theorem artilheiro_commit_frame (g : GameState) (i : Nat) (dir : DirecaoDisparo) :
    MesmosContadores g (artilheiro_commit g i dir) := by
  unfold artilheiro_commit
  cases h : g.lancadores[i]? with
  | none => simp [MesmosContadores]
  | some l =>
    by_cases hb : (!g.game_over && !l.tem_foguete) = true <;> simp [MesmosContadores, hb]

theorem render_metricas_frame (g : GameState) (rw rh : Int) :
    MesmosContadores g (render_metricas g rw rh) := by
  unfold render_metricas
  by_cases h1 : ((if rw < 40 then (40 : Int) else rw) = g.screen_width ∧
      (if rh < 8 then (8 : Int) else rh) = g.screen_height)
  · simp [MesmosContadores, h1]
  · by_cases h2 : (if rw < 40 then (40 : Int) else rw) ≤ g.bateria_x <;>
      simp [MesmosContadores, h1, h2]

theorem process_input_frame (g : GameState) (k : Tecla) (m p : Bool) :
    (process_input g k m p).naves = g.naves ∧
    (process_input g k m p).naves_total = g.naves_total ∧
    (process_input g k m p).naves_spawned = g.naves_spawned ∧
    (process_input g k m p).naves_destruidas = g.naves_destruidas ∧
    (process_input g k m p).naves_chegaram = g.naves_chegaram ∧
    (g.game_over = true → (process_input g k m p).game_over = true) := by
  cases k
  case espaco =>
    have h := tentar_disparar_frame g m p
    unfold MesmosContadores at h
    unfold process_input
    exact ⟨h.1, h.2.1, h.2.2.1, h.2.2.2.1, h.2.2.2.2.1, fun hg => by rw [h.2.2.2.2.2]; exact hg⟩
  case esquerda =>
    unfold process_input
    by_cases hb : 0 < g.bateria_x <;> simp [hb]
  case direita =>
    unfold process_input
    by_cases hb : g.bateria_x < g.screen_width - 1 <;> simp [hb]
  all_goals simp [process_input]

theorem nave_desce_frame (g : GameState) (i : Nat) :
    conta_ativas (nave_desce g i).naves = conta_ativas g.naves ∧
    (nave_desce g i).naves_total = g.naves_total ∧
    (nave_desce g i).naves_spawned = g.naves_spawned ∧
    (nave_desce g i).naves_destruidas = g.naves_destruidas ∧
    (nave_desce g i).naves_chegaram = g.naves_chegaram ∧
    (nave_desce g i).game_over = g.game_over := by
  unfold nave_desce
  cases h : g.naves[i]? with
  | none => simp
  | some n =>
    by_cases hf : n.ativa
    · simp [hf]
      exact conta_ativas_set_same h (by simp [hf])
    · simp [hf]

theorem gate_destruir_nave_frame (g : GameState) (i : Nat) :
    ((gate_destruir_nave g i).1 = true →
      conta_ativas (gate_destruir_nave g i).2.naves + 1 = conta_ativas g.naves) ∧
    ((gate_destruir_nave g i).1 = false → (gate_destruir_nave g i).2 = g) ∧
    (gate_destruir_nave g i).2.naves_total = g.naves_total ∧
    (gate_destruir_nave g i).2.naves_spawned = g.naves_spawned ∧
    (gate_destruir_nave g i).2.naves_destruidas = g.naves_destruidas ∧
    (gate_destruir_nave g i).2.naves_chegaram = g.naves_chegaram ∧
    (gate_destruir_nave g i).2.game_over = g.game_over := by
  unfold gate_destruir_nave
  cases h : g.naves[i]? with
  | none => simp
  | some n =>
    by_cases hf : n.ativa
    · simp [hf]
      exact conta_ativas_set_off h hf rfl
    · simp [hf]

theorem gate_chegada_nave_frame (g : GameState) (i : Nat) :
    ((gate_chegada_nave g i).1 = true →
      conta_ativas (gate_chegada_nave g i).2.naves + 1 = conta_ativas g.naves) ∧
    ((gate_chegada_nave g i).1 = false → (gate_chegada_nave g i).2 = g) ∧
    (gate_chegada_nave g i).2.naves_total = g.naves_total ∧
    (gate_chegada_nave g i).2.naves_spawned = g.naves_spawned ∧
    (gate_chegada_nave g i).2.naves_destruidas = g.naves_destruidas ∧
    (gate_chegada_nave g i).2.naves_chegaram = g.naves_chegaram ∧
    (gate_chegada_nave g i).2.game_over = g.game_over := by
  unfold gate_chegada_nave
  cases h : g.naves[i]? with
  | none => simp
  | some n =>
    by_cases hf : n.ativa
    · simp [hf]
      exact conta_ativas_set_off h hf rfl
    · simp [hf]

theorem passo_preserva_inv (s : SysState) (e : Ev) (h : Inv s) : Inv (passo s e) := by
  obtain ⟨h1, h2, h3⟩ := h
  cases e with
  | confereSpawn =>
    cases hf : s.fase with
    | ocioso =>
      by_cases hs : s.g.naves_spawned < s.g.naves_total
      · refine ⟨by simpa [passo, hf, hs] using h1, ?_, ?_⟩
        · simpa [passo, hf, hs, bonus_fase] using h2
        · intro _
          simp only [passo, hf, if_pos hs]
          exact hs
      · simp only [passo, hf, if_neg hs]
        exact ⟨h1, h2, h3⟩
    | conferido => simp only [passo, hf]; exact ⟨h1, h2, h3⟩
    | inicializado i => simp only [passo, hf]; exact ⟨h1, h2, h3⟩
    | lancando i => simp only [passo, hf]; exact ⟨h1, h2, h3⟩
  | inicializaSlot i x =>
    cases hf : s.fase with
    | conferido =>
      by_cases hcap : (MAX_NAVES : Int) ≤ s.g.num_naves_ativas
      · simp only [passo, hf, if_pos hcap]
        exact ⟨h1, h2, h3⟩
      · cases hn : s.g.naves[i]? with
        | none =>
          simp only [passo, hf, if_neg hcap, hn]
          exact ⟨h1, h2, h3⟩
        | some n =>
          by_cases ha : n.ativa
          · simp only [passo, hf, if_neg hcap, hn, ha, if_pos]
            exact ⟨h1, h2, h3⟩
          · have hcount := conta_ativas_set_on (m :=
              { n with id := i, x := x, y := s.g.hud_height, ativa := true, destruida := false })
              hn (by simpa using ha) rfl
            have hlt := h3 (Or.inl hf)
            refine ⟨?_, ?_, ?_⟩
            · simpa [passo, hf, hcap, hn, ha] using h1
            · have hb := h2
              rw [hf] at hb
              simp only [bonus_fase] at hb
              simp only [passo, hf, if_neg hcap, hn, ha, Bool.false_eq_true, if_false]
              simp only [bonus_fase]
              omega
            · intro _
              simpa [passo, hf, hcap, hn, ha] using hlt
    | ocioso => simp only [passo, hf]; exact ⟨h1, h2, h3⟩
    | inicializado j => simp only [passo, hf]; exact ⟨h1, h2, h3⟩
    | lancando j => simp only [passo, hf]; exact ⟨h1, h2, h3⟩
  | falhaSlot =>
    cases hf : s.fase with
    | conferido =>
      refine ⟨by simpa [passo, hf] using h1, ?_, by simp [passo, hf]⟩
      have := h2
      rw [hf] at this
      simpa [passo, hf, bonus_fase] using this
    | ocioso => simp only [passo, hf]; exact ⟨h1, h2, h3⟩
    | inicializado j => simp only [passo, hf]; exact ⟨h1, h2, h3⟩
    | lancando j => simp only [passo, hf]; exact ⟨h1, h2, h3⟩
  | incrementaSpawn =>
    cases hf : s.fase with
    | inicializado j =>
      have hlt := h3 (Or.inr ⟨j, hf⟩)
      have := h2
      rw [hf] at this
      simp only [bonus_fase] at this
      refine ⟨?_, ?_, ?_⟩
      · simp only [passo, hf]
        omega
      · simp only [passo, hf, bonus_fase]
        omega
      · simp [passo, hf]
    | ocioso => simp only [passo, hf]; exact ⟨h1, h2, h3⟩
    | conferido => simp only [passo, hf]; exact ⟨h1, h2, h3⟩
    | lancando j => simp only [passo, hf]; exact ⟨h1, h2, h3⟩
  | falhaMalloc =>
    cases hf : s.fase with
    | lancando j =>
      refine ⟨by simpa [passo, hf] using h1, ?_, by simp [passo, hf]⟩
      have := h2
      rw [hf] at this
      simpa [passo, hf, bonus_fase] using this
    | ocioso => simp only [passo, hf]; exact ⟨h1, h2, h3⟩
    | conferido => simp only [passo, hf]; exact ⟨h1, h2, h3⟩
    | inicializado j => simp only [passo, hf]; exact ⟨h1, h2, h3⟩
  | lancamentoOk =>
    cases hf : s.fase with
    | lancando j =>
      refine ⟨by simpa [passo, hf] using h1, ?_, by simp [passo, hf]⟩
      have := h2
      rw [hf] at this
      simpa [passo, hf, bonus_fase] using this
    | ocioso => simp only [passo, hf]; exact ⟨h1, h2, h3⟩
    | conferido => simp only [passo, hf]; exact ⟨h1, h2, h3⟩
    | inicializado j => simp only [passo, hf]; exact ⟨h1, h2, h3⟩
  | falhaLancamento =>
    cases hf : s.fase with
    | lancando j =>
      have hb := h2
      rw [hf] at hb
      simp only [bonus_fase] at hb
      cases hn : s.g.naves[j]? with
      | none =>
        refine ⟨by simpa [passo, hf, hn] using h1, ?_, by simp [passo, hf, hn]⟩
        simpa [passo, hf, hn, bonus_fase] using hb
      | some n =>
        by_cases ha : n.ativa
        · have hcount := conta_ativas_set_off (m := { n with ativa := false }) hn ha rfl
          refine ⟨by simpa [passo, hf, hn] using h1, ?_, by simp [passo, hf, hn]⟩
          simp only [passo, hf, hn, bonus_fase]
          omega
        · have hcount := conta_ativas_set_same (m := { n with ativa := false }) hn
            (by simp; simpa using ha)
          refine ⟨by simpa [passo, hf, hn] using h1, ?_, by simp [passo, hf, hn]⟩
          simp only [passo, hf, hn, bonus_fase]
          omega
    | ocioso => simp only [passo, hf]; exact ⟨h1, h2, h3⟩
    | conferido => simp only [passo, hf]; exact ⟨h1, h2, h3⟩
    | inicializado j => simp only [passo, hf]; exact ⟨h1, h2, h3⟩
  | moveNave i =>
    obtain ⟨f1, f2, f3, f4, f5, _⟩ := nave_desce_frame s.g i
    refine ⟨?_, ?_, ?_⟩
    · simp only [passo]
      rw [f2, f3]
      exact h1
    · simp only [passo]
      rw [f1, f3, f4, f5]
      exact h2
    · intro hc
      simp only [passo] at hc ⊢
      rw [f2, f3]
      exact h3 hc
  | gateChegada i =>
    obtain ⟨ft, ff, f2, f3, f4, f5, _⟩ := gate_chegada_nave_frame s.g i
    by_cases hr : (gate_chegada_nave s.g i).1
    · have hcount := ft hr
      refine ⟨?_, ?_, ?_⟩
      · simp only [passo, if_pos hr]
        rw [f2, f3]
        exact h1
      · simp only [passo, if_pos hr]
        rw [f3, f4, f5]
        omega
      · intro hc
        simp only [passo, if_pos hr] at hc ⊢
        rw [f2, f3]
        exact h3 hc
    · have heq := ff (by simpa using hr)
      simp only [passo, if_neg hr, heq]
      exact ⟨h1, h2, h3⟩
  | scoreChegada =>
    cases hp : s.pend_chegada with
    | zero => simp only [passo, hp]; exact ⟨h1, h2, h3⟩
    | succ k =>
      rw [hp] at h2
      refine ⟨by simpa [passo, hp, score_chegada] using h1, ?_, ?_⟩
      · simp only [passo, hp, score_chegada]
        omega
      · intro hc
        simp only [passo, hp, score_chegada] at hc ⊢
        exact h3 hc
  | naveDetecta j =>
    obtain ⟨f1, f2, f3, f4, f5, _⟩ := desativar_foguete_frame s.g j
    refine ⟨?_, ?_, ?_⟩
    · simp only [passo]; rw [f2, f3]; exact h1
    · simp only [passo]; rw [f1, f3, f4, f5]; exact h2
    · intro hc
      simp only [passo] at hc ⊢
      rw [f2, f3]
      exact h3 hc
  | gateDestruicao i =>
    obtain ⟨ft, ff, f2, f3, f4, f5, _⟩ := gate_destruir_nave_frame s.g i
    by_cases hr : (gate_destruir_nave s.g i).1
    · have hcount := ft hr
      refine ⟨?_, ?_, ?_⟩
      · simp only [passo, if_pos hr]
        rw [f2, f3]
        exact h1
      · simp only [passo, if_pos hr]
        rw [f3, f4, f5]
        omega
      · intro hc
        simp only [passo, if_pos hr] at hc ⊢
        rw [f2, f3]
        exact h3 hc
    · have heq := ff (by simpa using hr)
      simp only [passo, if_neg hr, heq]
      exact ⟨h1, h2, h3⟩
  | scoreDestr =>
    cases hp : s.pend_destruicao with
    | zero => simp only [passo, hp]; exact ⟨h1, h2, h3⟩
    | succ k =>
      rw [hp] at h2
      refine ⟨by simpa [passo, hp, score_destruicao] using h1, ?_, ?_⟩
      · simp only [passo, hp, score_destruicao]
        omega
      · intro hc
        simp only [passo, hp, score_destruicao] at hc ⊢
        exact h3 hc
  | reapNave => exact ⟨h1, h2, h3⟩
  | moveFoguete j =>
    obtain ⟨f1, f2, f3, f4, f5, _⟩ := foguete_avanca_frame s.g j
    refine ⟨?_, ?_, ?_⟩
    · simp only [passo]; rw [f2, f3]; exact h1
    · simp only [passo]; rw [f1, f3, f4, f5]; exact h2
    · intro hc
      simp only [passo] at hc ⊢
      rw [f2, f3]
      exact h3 hc
  | foraDosLimites j =>
    obtain ⟨f1, f2, f3, f4, f5, _⟩ := desativar_foguete_frame s.g j
    refine ⟨?_, ?_, ?_⟩
    · simp only [passo]; rw [f2, f3]; exact h1
    · simp only [passo]; rw [f1, f3, f4, f5]; exact h2
    · intro hc
      simp only [passo] at hc ⊢
      rw [f2, f3]
      exact h3 hc
  | reapFoguete => exact ⟨h1, h2, h3⟩
  | disparo m p =>
    obtain ⟨f1, f2, f3, f4, f5, _⟩ := tentar_disparar_frame s.g m p
    refine ⟨?_, ?_, ?_⟩
    · simp only [passo]; rw [f2, f3]; exact h1
    · simp only [passo]; rw [f1, f3, f4, f5]; exact h2
    · intro hc
      simp only [passo] at hc ⊢
      rw [f2, f3]
      exact h3 hc
  | recarga i dir =>
    obtain ⟨f1, f2, f3, f4, f5, _⟩ := artilheiro_commit_frame s.g i dir
    refine ⟨?_, ?_, ?_⟩
    · simp only [passo]; rw [f2, f3]; exact h1
    · simp only [passo]; rw [f1, f3, f4, f5]; exact h2
    · intro hc
      simp only [passo] at hc ⊢
      rw [f2, f3]
      exact h3 hc
  | tecla k m p =>
    obtain ⟨f1, f2, f3, f4, f5, _⟩ := process_input_frame s.g k m p
    refine ⟨?_, ?_, ?_⟩
    · simp only [passo]; rw [f2, f3]; exact h1
    · simp only [passo]; rw [f1, f3, f4, f5]; exact h2
    · intro hc
      simp only [passo] at hc ⊢
      rw [f2, f3]
      exact h3 hc
  | fimDeJogo =>
    refine ⟨by simpa [passo, finalizar_threads] using h1, ?_, ?_⟩
    · simpa [passo, finalizar_threads] using h2
    · intro hc
      simp only [passo, finalizar_threads] at hc ⊢
      exact h3 hc
  | atualizaRelogio t =>
    refine ⟨by simpa [passo] using h1, by simpa [passo] using h2, ?_⟩
    intro hc
    simp only [passo] at hc ⊢
    exact h3 hc
  | redimensiona rw2 rh2 =>
    obtain ⟨f1, f2, f3, f4, f5, _⟩ := render_metricas_frame s.g rw2 rh2
    refine ⟨?_, ?_, ?_⟩
    · simp only [passo]; rw [f2, f3]; exact h1
    · simp only [passo]; rw [f1, f3, f4, f5]; exact h2
    · intro hc
      simp only [passo] at hc ⊢
      rw [f2, f3]
      exact h3 hc

theorem passo_game_over_mono (s : SysState) (e : Ev) (h : s.g.game_over = true) :
    (passo s e).g.game_over = true := by
  cases e with
  | confereSpawn =>
    cases hf : s.fase
    case ocioso =>
      by_cases hs : s.g.naves_spawned < s.g.naves_total <;> simp [passo, hf, hs, h]
    all_goals simp [passo, hf, h]
  | inicializaSlot i x =>
    cases hf : s.fase
    case conferido =>
      by_cases hcap : (MAX_NAVES : Int) ≤ s.g.num_naves_ativas
      · simp [passo, hf, hcap, h]
      · cases hn : s.g.naves[i]? with
        | none => simp [passo, hf, hcap, hn, h]
        | some n => by_cases ha : n.ativa <;> simp [passo, hf, hcap, hn, ha, h]
    all_goals simp [passo, hf, h]
  | falhaSlot => cases hf : s.fase <;> simp [passo, hf, h]
  | incrementaSpawn => cases hf : s.fase <;> simp [passo, hf, h]
  | falhaMalloc => cases hf : s.fase <;> simp [passo, hf, h]
  | lancamentoOk => cases hf : s.fase <;> simp [passo, hf, h]
  | falhaLancamento =>
    cases hf : s.fase
    case lancando j => cases hn : s.g.naves[j]? <;> simp [passo, hf, hn, h]
    all_goals simp [passo, hf, h]
  | moveNave i =>
    have hgo := (nave_desce_frame s.g i).2.2.2.2.2
    simp only [passo]
    rw [hgo]
    exact h
  | gateChegada i =>
    have hgo := (gate_chegada_nave_frame s.g i).2.2.2.2.2.2
    by_cases hr : (gate_chegada_nave s.g i).1 <;>
      simp only [passo, hr, Bool.false_eq_true, if_true, if_false] <;> rw [hgo] <;> exact h
  | scoreChegada => cases hp : s.pend_chegada <;> simp [passo, hp, score_chegada, h]
  | naveDetecta j =>
    have hgo := (desativar_foguete_frame s.g j).2.2.2.2.2
    simp only [passo]
    rw [hgo]
    exact h
  | gateDestruicao i =>
    have hgo := (gate_destruir_nave_frame s.g i).2.2.2.2.2.2
    by_cases hr : (gate_destruir_nave s.g i).1 <;>
      simp only [passo, hr, Bool.false_eq_true, if_true, if_false] <;> rw [hgo] <;> exact h
  | scoreDestr => cases hp : s.pend_destruicao <;> simp [passo, hp, score_destruicao, h]
  | reapNave => simpa [passo] using h
  | moveFoguete j =>
    have hgo := (foguete_avanca_frame s.g j).2.2.2.2.2
    simp only [passo]
    rw [hgo]
    exact h
  | foraDosLimites j =>
    have hgo := (desativar_foguete_frame s.g j).2.2.2.2.2
    simp only [passo]
    rw [hgo]
    exact h
  | reapFoguete => simpa [passo] using h
  | disparo m p =>
    have hgo := (tentar_disparar_frame s.g m p).2.2.2.2.2
    simp only [passo]
    rw [hgo]
    exact h
  | recarga i dir =>
    have hgo := (artilheiro_commit_frame s.g i dir).2.2.2.2.2
    simp only [passo]
    rw [hgo]
    exact h
  | tecla k m p =>
    have hgo := (process_input_frame s.g k m p).2.2.2.2.2
    simp only [passo]
    exact hgo h
  | fimDeJogo => simp [passo, finalizar_threads]
  | atualizaRelogio t => simpa [passo] using h
  | redimensiona rw2 rh2 =>
    have hgo := (render_metricas_frame s.g rw2 rh2).2.2.2.2.2
    simp only [passo]
    rw [hgo]
    exact h

theorem executa_preserva_inv (t : List Ev) (s : SysState) (h : Inv s) : Inv (executa s t) := by
  induction t generalizing s with
  | nil => exact h
  | cons e es ih => exact ih (passo s e) (passo_preserva_inv s e h)

theorem executa_game_over_mono (t : List Ev) (s : SysState) (h : s.g.game_over = true) :
    (executa s t).g.game_over = true := by
  induction t generalizing s with
  | nil => exact h
  | cons e es ih => exact ih (passo s e) (passo_game_over_mono s e h)

theorem inv_sistema_inicial (d : Int) : Inv (sistema_inicial d) := by
  refine ⟨?_, ?_, ?_⟩
  · simp [sistema_inicial, game_init]
  · simp [sistema_inicial, game_init, conta_ativas, bonus_fase, List.countP_replicate]
  · intro hc
    simp [sistema_inicial] at hc

theorem tentativa_destruir_ativa {g : GameState} {i : Nat} {n : Nave} (o : OrigemTentativa)
    (h : g.naves[i]? = some n) (ha : n.ativa = true) :
    (tentativa_destruir i g o).1 = true ∧
    (tentativa_destruir i g o).2.naves[i]? = some { n with ativa := false, destruida := true } ∧
    (tentativa_destruir i g o).2.naves_destruidas = g.naves_destruidas + 1 := by
  obtain ⟨hi, _⟩ := List.getElem?_eq_some.mp h
  cases o with
  | ladoNave j =>
    obtain ⟨fn, _, _, fd, _, _⟩ := desativar_foguete_frame g j
    have h0 : (desativar_foguete g j).naves[i]? = some n := by rw [fn]; exact h
    have hi0 : i < (desativar_foguete g j).naves.length := by rw [fn]; exact hi
    simp only [tentativa_destruir, gate_destruir_nave, h0, ha, if_true]
    refine ⟨trivial, ?_, ?_⟩
    · simp [score_destruicao, List.getElem?_set_self hi0]
    · simp [score_destruicao, fd]
  | ladoFoguete j =>
    simp only [tentativa_destruir, gate_destruir_nave, h, ha, if_true]
    have hset : (g.naves.set i { n with ativa := false, destruida := true })[i]? =
        some { n with ativa := false, destruida := true } := List.getElem?_set_self hi
    obtain ⟨fn, _, _, fd, _, _⟩ := desativar_foguete_frame
      { g with naves := g.naves.set i { n with ativa := false, destruida := true } } j
    refine ⟨trivial, ?_, ?_⟩
    · simp only [score_destruicao]
      rw [fn]
      exact hset
    · simp only [score_destruicao]
      rw [fd]

theorem tentativa_destruir_inativa {g : GameState} {i : Nat} {n : Nave} (o : OrigemTentativa)
    (h : g.naves[i]? = some n) (ha : n.ativa = false) :
    (tentativa_destruir i g o).1 = false ∧
    (tentativa_destruir i g o).2.naves[i]? = some n ∧
    (tentativa_destruir i g o).2.naves_destruidas = g.naves_destruidas := by
  cases o with
  | ladoNave j =>
    obtain ⟨fn, _, _, fd, _, _⟩ := desativar_foguete_frame g j
    have h0 : (desativar_foguete g j).naves[i]? = some n := by rw [fn]; exact h
    simp only [tentativa_destruir, gate_destruir_nave, h0, ha, Bool.false_eq_true, if_false]
    exact ⟨trivial, trivial, fd⟩
  | ladoFoguete j =>
    simp only [tentativa_destruir, gate_destruir_nave, h, ha, Bool.false_eq_true, if_false]
    exact ⟨trivial, trivial, trivial⟩

theorem executa_tentativas_inativa {g : GameState} {i : Nat} {n : Nave}
    (os : List OrigemTentativa) (h : g.naves[i]? = some n) (ha : n.ativa = false) :
    (executa_tentativas i g os).1 = 0 ∧
    (executa_tentativas i g os).2.naves_destruidas = g.naves_destruidas := by
  induction os generalizing g with
  | nil => exact ⟨rfl, rfl⟩
  | cons o os ih =>
    obtain ⟨hfst, hslot, hdes⟩ := tentativa_destruir_inativa o h ha
    obtain ⟨ih1, ih2⟩ := ih hslot
    simp only [executa_tentativas, hfst, Bool.false_eq_true, if_false]
    exact ⟨by omega, by rw [ih2, hdes]⟩

theorem tentar_disparar_mira (g : GameState) (m p : Bool) :
    (tentar_disparar g m p).2.bateria_x = g.bateria_x ∧
    (tentar_disparar g m p).2.screen_width = g.screen_width := by
  unfold tentar_disparar
  cases h1 : busca_linear (fun l => l.tem_foguete) g.lancadores with
  | none => simp
  | some li =>
    cases h2 : busca_linear (fun f => !f.ativa) g.foguetes with
    | none => simp
    | some fi => cases m <;> cases p <;> simp

/-- C1: once an actor slot is observed with `alive = true`, any nonempty
sequence of destroy attempts racing on that slot — from its own actor
task or from any projectile tasks, serialized by the actors-region
lock — yields exactly one scoring event, and a sequence of attempts
against a slot already observed dead yields none; the destroyed counter
advances by exactly the number of scoring events. -/
theorem C1_destruicao_contada_uma_vez (g : GameState) (i : Nat) (n : Nave)
    (os : List OrigemTentativa) (h : g.naves[i]? = some n) :
    (executa_tentativas i g os).1 = (if n.ativa = true ∧ os ≠ [] then 1 else 0) ∧
    (executa_tentativas i g os).2.naves_destruidas =
      g.naves_destruidas + (if n.ativa = true ∧ os ≠ [] then 1 else 0) := by
  cases os with
  | nil => simp [executa_tentativas]
  | cons o rest =>
    by_cases ha : n.ativa = true
    · obtain ⟨hfst, hslot, hdes⟩ := tentativa_destruir_ativa o h ha
      obtain ⟨r1, r2⟩ := executa_tentativas_inativa rest hslot rfl
      simp only [executa_tentativas, hfst, if_true]
      constructor
      · simp [ha, r1]
      · simp only [ha, ne_eq, reduceCtorEq, not_false_eq_true, and_self, if_true]
        rw [r2, hdes]
    · have ha2 : n.ativa = false := by simpa using ha
      obtain ⟨r1, r2⟩ := executa_tentativas_inativa (o :: rest) h ha2
      constructor
      · simp [ha, r1]
      · simp [ha, r2]

/-- Concrete instance of `C1_destruicao_contada_uma_vez`: one alive slot,
one projectile-side and one actor-side attempt racing on it. -/
theorem C1_witness :
    (executa_tentativas 0
      { game_init 0 with
        naves := (game_init 0).naves.set 0 { id := 0, x := 5, y := 5, ativa := true, destruida := false } }
      [OrigemTentativa.ladoFoguete 3, OrigemTentativa.ladoNave 2]).1 = 1 ∧
    (executa_tentativas 0
      { game_init 0 with
        naves := (game_init 0).naves.set 0 { id := 0, x := 5, y := 5, ativa := true, destruida := false } }
      [OrigemTentativa.ladoFoguete 3, OrigemTentativa.ladoNave 2]).2.naves_destruidas = 1 := by
  have h := C1_destruicao_contada_uma_vez
    { game_init 0 with
      naves := (game_init 0).naves.set 0 { id := 0, x := 5, y := 5, ativa := true, destruida := false } }
    0 { id := 0, x := 5, y := 5, ativa := true, destruida := false }
    [OrigemTentativa.ladoFoguete 3, OrigemTentativa.ladoNave 2] (by decide)
  simpa using h

/-- C3: along every interleaving of the system's critical sections from
the initialized state, `naves_destruidas + naves_chegaram ≤ naves_total`
and `naves_spawned ≤ naves_total` hold at the reached state (every
observed instant is the final state of some trace prefix). -/
theorem C3_contadores_limitados (d : Int) (t : List Ev) :
    (executa (sistema_inicial d) t).g.naves_destruidas +
        (executa (sistema_inicial d) t).g.naves_chegaram ≤
      (executa (sistema_inicial d) t).g.naves_total ∧
    (executa (sistema_inicial d) t).g.naves_spawned ≤
      (executa (sistema_inicial d) t).g.naves_total := by
  obtain ⟨h1, h2, h3⟩ := executa_preserva_inv t (sistema_inicial d) (inv_sistema_inicial d)
  refine ⟨?_, h1⟩
  cases hf : (executa (sistema_inicial d) t).fase with
  | ocioso => rw [hf] at h2; simp only [bonus_fase] at h2; omega
  | conferido => rw [hf] at h2; simp only [bonus_fase] at h2; omega
  | inicializado i =>
    have hlt := h3 (Or.inr ⟨i, hf⟩)
    rw [hf] at h2
    simp only [bonus_fase] at h2
    omega
  | lancando i => rw [hf] at h2; simp only [bonus_fase] at h2; omega

/-- C8: once the termination flag is true, no critical section of any
task — orchestrator, input, shutdown, entity or reloader — ever resets
it, along any trace. -/
theorem C8_flag_terminacao_definitiva (s : SysState) (t : List Ev)
    (h : s.g.game_over = true) : (executa s t).g.game_over = true :=
  executa_game_over_mono t s h

/-- Concrete instance of `C8_flag_terminacao_definitiva`: after shutdown
sets the flag, a trace touching input, reload, fire, resize and clock
operations leaves it set. -/
theorem C8_witness :
    (executa
      { g := finalizar_threads (game_init 1), fase := .ocioso,
        pend_destruicao := 0, pend_chegada := 0 }
      [Ev.tecla Tecla.esquerda true true, Ev.recarga 0 DirecaoDisparo.DIR_VERTICAL,
       Ev.disparo true true, Ev.redimensiona 100 30, Ev.atualizaRelogio 7,
       Ev.confereSpawn]).g.game_over = true :=
  C8_flag_terminacao_definitiva
    { g := finalizar_threads (game_init 1), fase := .ocioso,
      pend_destruicao := 0, pend_chegada := 0 }
    [Ev.tecla Tecla.esquerda true true, Ev.recarga 0 DirecaoDisparo.DIR_VERTICAL,
     Ev.disparo true true, Ev.redimensiona 100 30, Ev.atualizaRelogio 7,
     Ev.confereSpawn] (by decide)

/-- C6: whenever the orchestrating loop's end-condition check observes
strictly more than half the targets escaped, it sets the termination
flag, even while targets remain unspawned. -/
theorem C6_derrota_imediata (g : GameState)
    (h : g.naves_total < 2 * g.naves_chegaram)
    (_hs : g.naves_spawned < g.naves_total) :
    (verifica_fim g).game_over = true := by
  have hdiv : g.naves_total / 2 < g.naves_chegaram := by omega
  simp [verifica_fim, hdiv]

/-- Concrete instance of `C6_derrota_imediata`: the Easy configuration
(30 targets) with 16 escaped and only 20 spawned. -/
theorem C6_witness :
    (verifica_fim { game_init 0 with naves_chegaram := 16, naves_spawned := 20 }).game_over = true :=
  C6_derrota_imediata { game_init 0 with naves_chegaram := 16, naves_spawned := 20 }
    (by decide) (by decide)

/-- C4: with no loaded bay or no free projectile slot, the fire action
returns false and leaves the whole state — bays, projectile slots and
the shot counter included — unchanged. -/
theorem C4_sem_disparo (g : GameState) (m p : Bool)
    (h : busca_linear (fun l => l.tem_foguete) g.lancadores = none ∨
         busca_linear (fun f => !f.ativa) g.foguetes = none) :
    tentar_disparar g m p = (false, g) := by
  cases h with
  | inl h1 => simp [tentar_disparar, h1]
  | inr h2 =>
    cases hl : busca_linear (fun l => l.tem_foguete) g.lancadores with
    | none => simp [tentar_disparar, hl]
    | some li => simp [tentar_disparar, hl, h2]

/-- Concrete instance of `C4_sem_disparo`: right after initialization
every bay is empty, so firing changes nothing. -/
theorem C4_witness : tentar_disparar (game_init 0) true true = (false, game_init 0) :=
  C4_sem_disparo (game_init 0) true true (Or.inl (by decide))

/-- C5: the reloader captures the aim direction selected at scan time,
and after its unlocked sleep marks the bay loaded with exactly that
direction if and only if the bay is still unloaded and the run has not
terminated (otherwise the state is left unchanged). -/
theorem C5_recarga_condicional (gs gw : GameState) (i : Nat) (d : DirecaoDisparo)
    (l : Lancador)
    (hscan : artilheiro_scan gs = some (i, d))
    (hl : gw.lancadores[i]? = some l) :
    d = gs.direcao_atual ∧
    (gw.game_over = false → l.tem_foguete = false →
      artilheiro_commit gw i d =
        { gw with lancadores := gw.lancadores.set i { tem_foguete := true, direcao := d } }) ∧
    (gw.game_over = true ∨ l.tem_foguete = true → artilheiro_commit gw i d = gw) := by
  refine ⟨?_, ?_, ?_⟩
  · unfold artilheiro_scan at hscan
    cases hb : busca_linear (fun l => !l.tem_foguete) gs.lancadores with
    | none => rw [hb] at hscan; simp at hscan
    | some j =>
      rw [hb] at hscan
      simp at hscan
      exact hscan.2.symm
  · intro hgo hb
    simp [artilheiro_commit, hl, hgo, hb]
  · intro hc
    cases hc with
    | inl hgo => simp [artilheiro_commit, hl, hgo]
    | inr hb => simp [artilheiro_commit, hl, hb]

/-- Concrete instance of `C5_recarga_condicional`: freshly initialized
state, bay 0 unloaded, vertical aim captured and committed. -/
theorem C5_witness :
    artilheiro_commit (game_init 0) 0 DirecaoDisparo.DIR_VERTICAL =
      { game_init 0 with
        lancadores := (game_init 0).lancadores.set 0
          { tem_foguete := true, direcao := DirecaoDisparo.DIR_VERTICAL } } := by
  have h := C5_recarga_condicional (game_init 0) (game_init 0) 0 DirecaoDisparo.DIR_VERTICAL
    { tem_foguete := false, direcao := DirecaoDisparo.DIR_VERTICAL } (by decide) (by decide)
  exact h.2.1 (by decide) (by decide)

/-- C7: a projectile whose move lands outside any playfield boundary
marks itself not-alive and exits its loop without touching any scoring
counter. -/
theorem C7_foguete_fora_sem_pontuar (g : GameState) (j : Nat) (f : Foguete)
    (hgo : g.game_over = false)
    (hf : g.foguetes[j]? = some f)
    (ha : f.ativa = true)
    (hout : fora_dos_limites (f.x + f.dx) (f.y + f.dy)
      g.screen_width g.screen_height g.hud_height g.controls_height = true) :
    (thread_foguete_passo g j).1 = ResultadoPasso.sai ∧
    ((thread_foguete_passo g j).2.foguetes[j]?).map (fun q => q.ativa) = some false ∧
    (thread_foguete_passo g j).2.pontuacao = g.pontuacao ∧
    (thread_foguete_passo g j).2.naves_destruidas = g.naves_destruidas ∧
    (thread_foguete_passo g j).2.naves_chegaram = g.naves_chegaram ∧
    (thread_foguete_passo g j).2.shots_hit = g.shots_hit ∧
    (thread_foguete_passo g j).2.current_streak = g.current_streak ∧
    (thread_foguete_passo g j).2.best_streak = g.best_streak := by
  obtain ⟨hj, _⟩ := List.getElem?_eq_some.mp hf
  simp only [thread_foguete_passo, hgo, Bool.false_eq_true, if_false, hf, ha, Bool.not_true]
  simp only [hout, if_true]
  refine ⟨trivial, ?_, trivial, trivial, trivial, trivial, trivial, trivial⟩
  simp [List.set_set, List.getElem?_set_self, hj]

/-- Concrete instance of `C7_foguete_fora_sem_pontuar`: a vertical
projectile one step below the header band exits the top boundary. -/
theorem C7_witness :
    (thread_foguete_passo
      { game_init 0 with
        foguetes := (game_init 0).foguetes.set 0
          { id := 0, x := 5, y := 3, dx := 0, dy := -1,
            direcao := DirecaoDisparo.DIR_VERTICAL, lancador_id := 0, ativa := true } }
      0).1 = ResultadoPasso.sai ∧
    (thread_foguete_passo
      { game_init 0 with
        foguetes := (game_init 0).foguetes.set 0
          { id := 0, x := 5, y := 3, dx := 0, dy := -1,
            direcao := DirecaoDisparo.DIR_VERTICAL, lancador_id := 0, ativa := true } }
      0).2.naves_destruidas = 0 := by
  have h := C7_foguete_fora_sem_pontuar
    { game_init 0 with
      foguetes := (game_init 0).foguetes.set 0
        { id := 0, x := 5, y := 3, dx := 0, dy := -1,
          direcao := DirecaoDisparo.DIR_VERTICAL, lancador_id := 0, ativa := true } }
    0
    { id := 0, x := 5, y := 3, dx := 0, dy := -1,
      direcao := DirecaoDisparo.DIR_VERTICAL, lancador_id := 0, ativa := true }
    (by decide) (by decide) (by decide) (by decide)
  exact ⟨h.1, h.2.2.2.1⟩

/-- C9: when the projectile task launch fails after a loaded bay was
consumed, the fire action returns false and deactivates the projectile
slot (active count restored), but the shot counter stays incremented and
the bay stays unloaded — the consume is not rolled back. -/
theorem C9_falha_lancamento_sem_reversao (g : GameState) (li fi : Nat)
    (hb : busca_linear (fun l => l.tem_foguete) g.lancadores = some li)
    (hs : busca_linear (fun f => !f.ativa) g.foguetes = some fi) :
    (tentar_disparar g true false).1 = false ∧
    ((tentar_disparar g true false).2.foguetes[fi]?).map (fun q => q.ativa) = some false ∧
    (tentar_disparar g true false).2.num_foguetes_ativos = g.num_foguetes_ativos ∧
    (tentar_disparar g true false).2.shots_fired = g.shots_fired + 1 ∧
    ((tentar_disparar g true false).2.lancadores[li]?).map (fun l => l.tem_foguete) =
      some false := by
  have hfl := busca_linear_some_lt hs
  have hll := busca_linear_some_lt hb
  refine ⟨?_, ?_, ?_, ?_, ?_⟩
  · simp [tentar_disparar, hb, hs]
  · simp [tentar_disparar, hb, hs, List.set_set, List.getElem?_set_self, hfl]
  · simp [tentar_disparar, hb, hs]
  · simp [tentar_disparar, hb, hs]
  · simp [tentar_disparar, hb, hs, List.getElem?_set_self, hll]

/-- Concrete instance of `C9_falha_lancamento_sem_reversao`: bay 0
loaded, slot 0 free, `pthread_create` fails. -/
theorem C9_witness :
    (tentar_disparar
      { game_init 0 with
        lancadores := (game_init 0).lancadores.set 0
          { tem_foguete := true, direcao := DirecaoDisparo.DIR_VERTICAL } }
      true false).1 = false ∧
    (tentar_disparar
      { game_init 0 with
        lancadores := (game_init 0).lancadores.set 0
          { tem_foguete := true, direcao := DirecaoDisparo.DIR_VERTICAL } }
      true false).2.shots_fired = 1 := by
  have h := C9_falha_lancamento_sem_reversao
    { game_init 0 with
      lancadores := (game_init 0).lancadores.set 0
        { tem_foguete := true, direcao := DirecaoDisparo.DIR_VERTICAL } }
    0 0 (by decide) (by decide)
  exact ⟨h.1, h.2.2.2.1⟩

/-- C10: input processing keeps the battery aim inside
`[0, screen_width - 1]` — move-left decrements only when positive,
move-right increments only below the right edge — and the renderer's
metric publication re-clamps the aim to the new width on resize. -/
theorem C10_bateria_nos_limites (g : GameState) (k : Tecla) (m p : Bool) (rw2 rh2 : Int)
    (h0 : 0 ≤ g.bateria_x) (h1 : g.bateria_x ≤ g.screen_width - 1) :
    (0 ≤ (process_input g k m p).bateria_x ∧
      (process_input g k m p).bateria_x ≤ (process_input g k m p).screen_width - 1) ∧
    (process_input g Tecla.esquerda m p).bateria_x =
      (if 0 < g.bateria_x then g.bateria_x - 1 else g.bateria_x) ∧
    (process_input g Tecla.direita m p).bateria_x =
      (if g.bateria_x < g.screen_width - 1 then g.bateria_x + 1 else g.bateria_x) ∧
    (0 ≤ (render_metricas g rw2 rh2).bateria_x ∧
      (render_metricas g rw2 rh2).bateria_x ≤ (render_metricas g rw2 rh2).screen_width - 1) := by
  refine ⟨?_, ?_, ?_, ?_⟩
  · cases k with
    | esquerda =>
      by_cases hb : 0 < g.bateria_x <;> simp [process_input, hb] <;> omega
    | direita =>
      by_cases hb : g.bateria_x < g.screen_width - 1 <;> simp [process_input, hb] <;> omega
    | espaco =>
      obtain ⟨hbx, hsw⟩ := tentar_disparar_mira g m p
      simp only [process_input]
      rw [hbx, hsw]
      exact ⟨h0, h1⟩
    | cima => simpa [process_input] using ⟨h0, h1⟩
    | diagEsq => simpa [process_input] using ⟨h0, h1⟩
    | diagDir => simpa [process_input] using ⟨h0, h1⟩
    | horEsq => simpa [process_input] using ⟨h0, h1⟩
    | horDir => simpa [process_input] using ⟨h0, h1⟩
    | sair => simpa [process_input] using ⟨h0, h1⟩
    | outra => simpa [process_input] using ⟨h0, h1⟩
  · by_cases hb : 0 < g.bateria_x <;> simp [process_input, hb]
  · by_cases hb : g.bateria_x < g.screen_width - 1 <;> simp [process_input, hb]
  · unfold render_metricas
    by_cases hsame : ((if rw2 < 40 then (40 : Int) else rw2) = g.screen_width ∧
        (if rh2 < 8 then (8 : Int) else rh2) = g.screen_height)
    · simp only [hsame, if_true]
      exact ⟨h0, h1⟩
    · simp only [hsame, if_false]
      by_cases hcl : (if rw2 < 40 then (40 : Int) else rw2) ≤ g.bateria_x
      · simp only [hcl, if_true]
        by_cases hw : rw2 < 40
        · simp [hw]
        · simp [hw]
          omega
      · simp only [hcl, if_false]
        by_cases hw : rw2 < 40 <;> simp [hw] at hcl ⊢ <;> omega

/-- Concrete instance of `C10_bateria_nos_limites`: initial state
(aim at 60 of width 120), with a resize to an 80-column terminal. -/
theorem C10_witness :
    (process_input (game_init 0) Tecla.direita true true).bateria_x = 61 ∧
    (render_metricas (game_init 0) 80 30).bateria_x = 60 := by
  have h := C10_bateria_nos_limites (game_init 0) Tecla.direita true true 80 30
    (by decide) (by decide)
  refine ⟨?_, ?_⟩
  · rw [h.2.2.1]
    decide
  · decide

/-- C2 (code divergence): with a free slot available and
`pthread_create` failing, `criar_nave` rolls back the slot but leaves
`naves_spawned` incremented; with `malloc` failing it leaves both the
slot active and the counter incremented.  The spec's required rollback
of the Run State reservation does not happen. -/
theorem C2_spawn_sem_reversao :
    (game_init 0).naves_spawned = 0 ∧
    (criar_nave (game_init 0) 5 true false).naves_spawned = 1 ∧
    ((criar_nave (game_init 0) 5 true false).naves[0]?).map (fun n => n.ativa) = some false ∧
    (criar_nave (game_init 0) 5 false true).naves_spawned = 1 ∧
    ((criar_nave (game_init 0) 5 false true).naves[0]?).map (fun n => n.ativa) = some true := by
  decide

end AlienInbound
